import Mathlib

/-!
Verification of `src/py21cmmc/_21cmfast/wrapper.py`: parameter structures
(`CosmoParams`, `UserParams`), the output artifact (`InitialConditions`),
and the orchestration function `initial_conditions`.

Pure Python expressions are translated to Lean functions; Python floats are
modelled as rationals (every operation involved is a single exact subtraction
or a constant, so no rounding behaviour is at stake); the NumPy random
generator is modelled as an abstract stream `draws : ℕ → ℤ` of successive
outputs of `np.random.randint(1, 1e12)`; attribute mutation is modelled by
explicit state passing; the `while` loop in the `RANDOM_SEED` property is
modelled with explicit fuel (`none` result = the loop has not yet exited
within `fuel` iterations); exceptions are modelled with `Except`.
-/

namespace Wrapper

/-- Python truthiness of an optional integer attribute: `None` and `0` are
falsy, every other integer is truthy. -/
def pyTruthy : Option ℤ → Bool
  | none => false
  | some v => v ≠ 0

/-- Python `x or y` for an optional natural-valued attribute `x` (the only
falsy naturals being `None` and `0`): yields `y` when `x` is falsy, else the
value of `x`.  Embeds `self._DIM or 4 * self.HII_DIM`. -/
def pyOrNat (x : Option ℕ) (y : ℕ) : ℕ :=
  match x with
  | none => y
  | some v => if v = 0 then y else v

/-- Planck15.h from astropy (external collaborator, exact published value). -/
def planck15_h : ℚ := 6774 / 10000

/-- Planck15.Om0 from astropy (external collaborator, exact published value). -/
def planck15_Om0 : ℚ := 3075 / 10000

/-- Planck15.Ob0 from astropy (external collaborator, exact published value). -/
def planck15_Ob0 : ℚ := 486 / 10000

/-- The stored fields of `CosmoParams` (wrapper.py lines 24-70).  `_RANDOM_SEED`
keeps the `Option` sentinel because its default is `None` and the property can
mutate it; the remaining stored fields are kept at their resolved values. -/
structure CosmoParams where
  _RANDOM_SEED : Option ℤ
  SIGMA_8 : ℚ
  hlittle : ℚ
  OMm : ℚ
  OMb : ℚ
  POWER_INDEX : ℚ
deriving DecidableEq

/-- Modelled from the spec: the `StructWithDefaults` constructor lives in
`._utils`, which is not part of the provided sources.  Per the spec
("`resolve(field)`: returns the stored value if explicitly set, else the
default"), each stored field takes the explicit override when one is given and
otherwise the default from `_defaults_` (wrapper.py lines 50-57):
`RANDOM_SEED = None`, `SIGMA_8 = 0.82`, `hlittle = Planck15.h`,
`OMm = Planck15.Om0`, `OMb = Planck15.Ob0`, `POWER_INDEX = 0.97`. -/
def CosmoParams.make (seed : Option ℤ) (sigma8 hl omm omb pidx : Option ℚ) :
    CosmoParams :=
  { _RANDOM_SEED := seed
    SIGMA_8 := sigma8.getD (82 / 100)
    hlittle := hl.getD planck15_h
    OMm := omm.getD planck15_Om0
    OMb := omb.getD planck15_Ob0
    POWER_INDEX := pidx.getD (97 / 100) }

/-- The loop `while not self._RANDOM_SEED: self._RANDOM_SEED =
int(np.random.randint(1, 1e12))` (wrapper.py lines 61-62).  `draws i` is the
`i`-th output of the NumPy generator; `fuel` bounds the number of iterations
still allowed; the result is the final value of `self._RANDOM_SEED` on loop
exit, or `none` when the loop is still running after `fuel` iterations. -/
def seedWhile (draws : ℕ → ℤ) : ℕ → ℕ → Option ℤ → Option ℤ
  | 0, _, cur => if pyTruthy cur then cur else none
  | fuel + 1, i, cur =>
      if pyTruthy cur then cur
      else seedWhile draws fuel (i + 1) (some (draws i))

/-- One access of the `RANDOM_SEED` property (wrapper.py lines 59-63): run the
while-loop, return the resulting value together with the instance whose
`_RANDOM_SEED` now stores it.  `none` when the loop exceeded `fuel`. -/
def CosmoParams.accessRANDOM_SEED (draws : ℕ → ℤ) (fuel : ℕ) (c : CosmoParams) :
    Option (ℤ × CosmoParams) :=
  match seedWhile draws fuel 0 c._RANDOM_SEED with
  | none => none
  | some v => some (v, { c with _RANDOM_SEED := some v })

/-- The derived property `OMl` (wrapper.py lines 65-67): `1 - self.OMm`,
computed on access, never stored. -/
def CosmoParams.OMl (c : CosmoParams) : ℚ := 1 - c.OMm

/-- The stored fields of `UserParams` (wrapper.py lines 73-104).  `_DIM` keeps
the `Option` sentinel because its default is `None`. -/
structure UserParams where
  BOX_LEN : ℚ
  _DIM : Option ℕ
  HII_DIM : ℕ
deriving DecidableEq

/-- Modelled from the spec: the `StructWithDefaults` constructor lives in
`._utils`, which is not part of the provided sources.  Per the spec, each
stored field takes the explicit override when one is given and otherwise the
default from `_defaults_` (wrapper.py lines 92-96): `BOX_LEN = 150.0`,
`DIM = None`, `HII_DIM = 100`. -/
def UserParams.make (box_len : Option ℚ) (dim : Option ℕ) (hii_dim : Option ℕ) :
    UserParams :=
  { BOX_LEN := box_len.getD 150
    _DIM := dim
    HII_DIM := hii_dim.getD 100 }

/-- The `DIM` property (wrapper.py lines 98-100):
`return self._DIM or 4 * self.HII_DIM`. -/
def UserParams.DIM (u : UserParams) : ℕ := pyOrNat u._DIM (4 * u.HII_DIM)

/-- The `tot_fft_num_pixels` property (wrapper.py lines 102-104):
`return self.DIM**3`. -/
def UserParams.tot_fft_num_pixels (u : UserParams) : ℕ := u.DIM ^ 3

/-- The `InitialConditions` output artifact (wrapper.py lines 110-122): its
governing parameter structs, its single named buffer `hires_density`, and the
fill-state flag maintained by `OutputStruct`. -/
structure InitialConditions where
  user_params : UserParams
  cosmo_params : CosmoParams
  hires_density : List ℚ
  filled : Bool
deriving DecidableEq

/-- Modelled from the spec: `OutputStruct.__init__` lives in `._utils`, which
is not part of the provided sources.  Per the spec ("`allocate(parameterSets)`
computes buffer shapes from the given ParameterSets and zero-initializes named
buffers; returns the artifact in unfilled state"), construction stores the
governing parameter structs, runs `_init_boxes`, and leaves the artifact
unfilled.  The buffer contents come from the source `_init_boxes` (wrapper.py
lines 120-122): `np.zeros(self.user_params.tot_fft_num_pixels)`. -/
def InitialConditions.allocate (u : UserParams) (c : CosmoParams) :
    InitialConditions :=
  { user_params := u
    cosmo_params := c
    hires_density := List.replicate u.tot_fft_num_pixels 0
    filled := false }

/-- Outcome of the `boxes.read(direc, fname, match_seed)` call inside
`initial_conditions`: `success b` when the read fills the artifact (yielding
`b`) and returns, `ioErr` when it raises `IOError`, `otherErr e` when it
raises any other exception (coded by a number). -/
inductive ReadOutcome
  | success : InitialConditions → ReadOutcome
  | ioErr : ReadOutcome
  | otherErr : ℕ → ReadOutcome
deriving DecidableEq

/-- Observable outcome of one `initial_conditions` call: the returned artifact
plus how many times the computation boundary `lib.ComputeInitialConditions`
and the store write `boxes.write` were invoked. -/
structure ICResult where
  boxes : InitialConditions
  computeCalls : ℕ
  writeCalls : ℕ
deriving DecidableEq

/-- The orchestration function `initial_conditions` (wrapper.py lines
136-190), with the storage read and the external C computation supplied as
abstract boundaries.  Control flow follows the source exactly: allocate the
boxes; if not `regenerate`, try the read — on success print-and-return the
read boxes at once, on `IOError` fall through (`except IOError: pass`), on
any other exception propagate; then run `lib.ComputeInitialConditions`, set
`boxes.filled = True`, write iff `write`, and return. -/
def initial_conditions (user_params : UserParams) (cosmo_params : CosmoParams)
    (regenerate : Bool) (write : Bool)
    (read : InitialConditions → ReadOutcome)
    (compute : UserParams → CosmoParams → InitialConditions → InitialConditions) :
    Except ℕ ICResult :=
  let boxes := InitialConditions.allocate user_params cosmo_params
  let early : Except ℕ (Option ICResult) :=
    if regenerate then Except.ok none
    else
      match read boxes with
      | ReadOutcome.success b => Except.ok (some ⟨b, 0, 0⟩)
      | ReadOutcome.ioErr => Except.ok none
      | ReadOutcome.otherErr e => Except.error e
  match early with
  | Except.error e => Except.error e
  | Except.ok (some r) => Except.ok r
  | Except.ok none =>
      let filledBoxes :=
        { compute user_params cosmo_params boxes with filled := true }
      Except.ok ⟨filledBoxes, 1, if write then 1 else 0⟩

/-- The module-level state relevant to default arguments: the two instances
`UserParams()` and `CosmoParams()` created once when the `def
initial_conditions(user_params=UserParams(), cosmo_params=CosmoParams(), ...)`
line (wrapper.py line 136) is executed, and shared by every call that omits
those arguments. -/
structure ModuleState where
  defaultUser : UserParams
  defaultCosmo : CosmoParams
deriving DecidableEq

/-- The module state right after the `def initial_conditions` line runs: both
default instances freshly constructed with no overrides. -/
def initModuleState : ModuleState :=
  { defaultUser := UserParams.make none none none
    defaultCosmo := CosmoParams.make none none none none none none }

/-- Modelled from the spec: a default-argument call of `initial_conditions`
observes the shared default `CosmoParams` instance's `RANDOM_SEED`.  The
source call `cosmo_params()` (wrapper.py line 183) translates the parameter
struct into the flat native argument list via `StructWithDefaults.__call__`
in `._utils`, which is not part of the provided sources; per the spec that
translation reads every field, realizing the lazy seed.  Because the default
instance is shared, the realization mutates the module state. -/
def defaultCallSeed (draws : ℕ → ℤ) (fuel : ℕ) (st : ModuleState) :
    Option (ℤ × ModuleState) :=
  match st.defaultCosmo.accessRANDOM_SEED draws fuel with
  | none => none
  | some (v, c) => some (v, { st with defaultCosmo := c })

/-- A tiny concrete `UserParams` for concrete evaluations: explicit `DIM = 1`
keeps the allocated buffer to a single element. -/
def upSmall : UserParams := UserParams.make none (some 1) none

/-- A concrete `CosmoParams` with an explicit nonzero seed. -/
def cpSmall : CosmoParams := CosmoParams.make (some 3) none none none none none

/-- The artifact allocated from the tiny concrete parameters. -/
def icSmall : InitialConditions := InitialConditions.allocate upSmall cpSmall

/-! ## Helper lemmas -/

/-- The while-loop only exits with a truthy (hence nonzero) stored seed. -/
theorem seedWhile_ne_zero (draws : ℕ → ℤ) :
    ∀ (fuel i : ℕ) (cur : Option ℤ) (v : ℤ),
      seedWhile draws fuel i cur = some v → v ≠ 0 := by
  intro fuel
  induction fuel with
  | zero =>
    intro i cur v h
    by_cases hc : pyTruthy cur
    · simp only [seedWhile, hc, if_true] at h
      rw [h] at hc
      simpa [pyTruthy] using hc
    · simp [seedWhile, hc] at h
  | succ k ih =>
    intro i cur v h
    by_cases hc : pyTruthy cur
    · simp only [seedWhile, hc, if_true] at h
      rw [h] at hc
      simpa [pyTruthy] using hc
    · simp only [seedWhile, hc, if_false, Bool.false_eq_true] at h
      exact ih (i + 1) (some (draws i)) v h

/-- On a truthy stored seed the while-loop does not run at all. -/
theorem seedWhile_of_truthy (draws : ℕ → ℤ) (fuel i : ℕ) (cur : Option ℤ)
    (h : pyTruthy cur = true) : seedWhile draws fuel i cur = cur := by
  cases fuel <;> simp [seedWhile, h]

/-- Once an access of `RANDOM_SEED` has produced a value, any later access on
the resulting instance (with any generator stream and any fuel, even zero)
returns the same value and leaves the instance unchanged. -/
theorem accessRANDOM_SEED_stable (draws draws' : ℕ → ℤ) (fuel fuel' : ℕ)
    (c c' : CosmoParams) (v : ℤ)
    (h : c.accessRANDOM_SEED draws fuel = some (v, c')) :
    c'.accessRANDOM_SEED draws' fuel' = some (v, c') := by
  unfold CosmoParams.accessRANDOM_SEED at h ⊢
  cases hsw : seedWhile draws fuel 0 c._RANDOM_SEED with
  | none => rw [hsw] at h; exact absurd h (by simp)
  | some w =>
    rw [hsw] at h
    simp only [Option.some.injEq, Prod.mk.injEq] at h
    obtain ⟨rfl, rfl⟩ := h
    have hw : w ≠ 0 := seedWhile_ne_zero draws fuel 0 _ w hsw
    rw [seedWhile_of_truthy draws' fuel' 0 (some w) (by simp [pyTruthy, hw])]

/-! ## Claim theorems -/

/-- Claim C1: when `regenerate` is false and the store read succeeds, `initial_conditions`
returns the read-in artifact immediately: `lib.ComputeInitialConditions` is not invoked
and no write to the store is performed. -/
theorem C1_cache_hit_no_compute_no_write (user_params : UserParams)
    (cosmo_params : CosmoParams) (write : Bool)
    (read : InitialConditions → ReadOutcome)
    (compute : UserParams → CosmoParams → InitialConditions → InitialConditions)
    (b : InitialConditions)
    (h : read (InitialConditions.allocate user_params cosmo_params) =
      ReadOutcome.success b) :
    initial_conditions user_params cosmo_params false write read compute =
      Except.ok ⟨b, 0, 0⟩ := by
  simp [initial_conditions, h]

/-- Witness for C1 at concrete inputs: the read succeeds with `icSmall`, and the call
returns it with zero compute calls and zero write calls. -/
theorem C1_witness :
    initial_conditions upSmall cpSmall false true
      (fun _ => ReadOutcome.success icSmall) (fun _ _ b => b) =
      Except.ok ⟨icSmall, 0, 0⟩ :=
  C1_cache_hit_no_compute_no_write upSmall cpSmall true
    (fun _ => ReadOutcome.success icSmall) (fun _ _ b => b) icSmall rfl

/-- Claim C2: when the store read raises `IOError` or `regenerate` is true,
`lib.ComputeInitialConditions` is invoked exactly once with the user parameters,
cosmological parameters and the pre-allocated artifact; the artifact's `filled` flag is
set; the artifact is written iff `write` is true; the filled artifact is returned. -/
theorem C2_miss_computes_once (user_params : UserParams) (cosmo_params : CosmoParams)
    (regenerate write : Bool)
    (read : InitialConditions → ReadOutcome)
    (compute : UserParams → CosmoParams → InitialConditions → InitialConditions)
    (h : regenerate = true ∨
      read (InitialConditions.allocate user_params cosmo_params) = ReadOutcome.ioErr) :
    initial_conditions user_params cosmo_params regenerate write read compute =
      Except.ok
        ⟨{ compute user_params cosmo_params
            (InitialConditions.allocate user_params cosmo_params) with filled := true },
          1, if write then 1 else 0⟩ ∧
    ((if write then (1 : ℕ) else 0) = 1 ↔ write = true) := by
  constructor
  · rcases h with h | h
    · subst h
      simp [initial_conditions]
    · cases regenerate <;> simp [initial_conditions, h]
  · cases write <;> simp

/-- Witness for C2 at concrete inputs: the read raises `IOError`, `write` is false; the
identity computation runs once, the result is filled, and nothing is written. -/
theorem C2_witness :
    initial_conditions upSmall cpSmall false false
      (fun _ => ReadOutcome.ioErr) (fun _ _ b => b) =
      Except.ok ⟨{ icSmall with filled := true }, 1, 0⟩ ∧
    ((0 : ℕ) = 1 ↔ (false : Bool) = true) :=
  C2_miss_computes_once upSmall cpSmall false false
    (fun _ => ReadOutcome.ioErr) (fun _ _ b => b) (Or.inr rfl)

/-- Counterexample to claim C3 as stated: at a concrete input whose read raises
`IOError`, `initial_conditions` does not propagate the error to the caller; it absorbs
it as a cache miss, runs the computation once, and returns a filled artifact. -/
theorem C3_counterexample :
    initial_conditions upSmall cpSmall false false
      (fun _ => ReadOutcome.ioErr) (fun _ _ b => b) =
      Except.ok ⟨{ icSmall with filled := true }, 1, 0⟩ ∧
    ∀ e : ℕ, initial_conditions upSmall cpSmall false false
      (fun _ => ReadOutcome.ioErr) (fun _ _ b => b) ≠ Except.error e := by
  refine ⟨rfl, fun e h => ?_⟩
  simp [initial_conditions] at h

/-- Claim C3 amended: an `IOError` raised by the read step inside `initial_conditions`
is caught (`except IOError: pass`) and treated as a cache miss — the computation runs
and a filled artifact is returned; any other exception raised by the read propagates
unmodified to the caller. -/
theorem C3_ioerror_absorbed (user_params : UserParams) (cosmo_params : CosmoParams)
    (write : Bool) (read : InitialConditions → ReadOutcome)
    (compute : UserParams → CosmoParams → InitialConditions → InitialConditions) :
    (read (InitialConditions.allocate user_params cosmo_params) = ReadOutcome.ioErr →
      initial_conditions user_params cosmo_params false write read compute =
        Except.ok
          ⟨{ compute user_params cosmo_params
              (InitialConditions.allocate user_params cosmo_params) with
              filled := true },
            1, if write then 1 else 0⟩) ∧
    (∀ e : ℕ,
      read (InitialConditions.allocate user_params cosmo_params) =
        ReadOutcome.otherErr e →
      initial_conditions user_params cosmo_params false write read compute =
        Except.error e) := by
  constructor
  · intro h
    simp [initial_conditions, h]
  · intro e h
    simp [initial_conditions, h]

/-- Witness for the amended C3 at concrete inputs. -/
theorem C3_witness :
    initial_conditions upSmall cpSmall false true
      (fun _ => ReadOutcome.ioErr) (fun _ _ b => b) =
      Except.ok ⟨{ icSmall with filled := true }, 1, 1⟩ :=
  (C3_ioerror_absorbed upSmall cpSmall true
    (fun _ => ReadOutcome.ioErr) (fun _ _ b => b)).1 rfl

/-- Counterexample to claim C4 as stated: a `UserParams` constructed with the explicit
value `DIM = 0` does not resolve `DIM` to the stored 0 — the Python `or` treats 0 as
falsy, so it resolves to `4 * HII_DIM = 400` instead. -/
theorem C4_counterexample :
    (UserParams.make none (some 0) (some 100))._DIM = some 0 ∧
    (UserParams.make none (some 0) (some 100)).DIM = 400 ∧
    (UserParams.make none (some 0) (some 100)).DIM ≠ 0 := by
  refine ⟨rfl, rfl, by decide⟩

/-- Claim C4 amended: the `DIM` property resolves to the explicitly stored `DIM` value
whenever one was set to a nonzero value at construction (an explicit 0, being falsy,
falls back to the default), and resolves to `4 * HII_DIM` whenever `DIM` was left
unset; with `HII_DIM = 100` and `DIM` unset it resolves to 400, and with
`HII_DIM = 50` and `DIM` unset it resolves to 200. -/
theorem C4_DIM_resolution (u : UserParams) :
    (∀ d : ℕ, u._DIM = some d → d ≠ 0 → u.DIM = d) ∧
    (u._DIM = none → u.DIM = 4 * u.HII_DIM) ∧
    (UserParams.make none none (some 100)).DIM = 400 ∧
    (UserParams.make none none (some 50)).DIM = 200 := by
  refine ⟨?_, ?_, by decide, by decide⟩
  · intro d hd hne
    simp [UserParams.DIM, pyOrNat, hd, hne]
  · intro hd
    simp [UserParams.DIM, pyOrNat, hd]

/-- Witness for the amended C4 at concrete inputs: an explicit nonzero `DIM = 7` is
kept, and an unset `DIM` with default `HII_DIM = 100` resolves to 400. -/
theorem C4_witness :
    (UserParams.make none (some 7) none).DIM = 7 ∧
    (UserParams.make none none none).DIM = 400 :=
  ⟨(C4_DIM_resolution (UserParams.make none (some 7) none)).1 7 rfl (by decide),
    (C4_DIM_resolution (UserParams.make none none none)).2.1 rfl⟩

/-- Claim C5: accessing the `RANDOM_SEED` property twice on the same `CosmoParams`
returns the same value both times — once an access has realized the lazy field, any
later access (under any generator stream and any fuel) returns the same value and does
not re-randomize. -/
theorem C5_seed_access_stable (draws draws' : ℕ → ℤ) (fuel fuel' : ℕ)
    (c c' : CosmoParams) (v : ℤ)
    (h : c.accessRANDOM_SEED draws fuel = some (v, c')) :
    c'.accessRANDOM_SEED draws' fuel' = some (v, c') :=
  accessRANDOM_SEED_stable draws draws' fuel fuel' c c' v h

/-- Witness for C5 at concrete inputs: after a first access realizes the seed 42, a
second access under a different stream returns 42 again. -/
theorem C5_witness :
    (CosmoParams.make (some 42) none none none none none).accessRANDOM_SEED
      (fun _ => 7) 0 =
      some (42, CosmoParams.make (some 42) none none none none none) :=
  C5_seed_access_stable (fun _ => 42) (fun _ => 7) 1 0
    (CosmoParams.make none none none none none none)
    (CosmoParams.make (some 42) none none none none none) 42 rfl

/-- Claim C6: the primary buffer `hires_density` has exactly `DIM ** 3` elements for
the governing `UserParams`' resolved `DIM` (`tot_fft_num_pixels = DIM ** 3`); with
`HII_DIM = 100` and `DIM` unset that is `400 ** 3`, and with `HII_DIM = 50` and `DIM`
unset it is `200 ** 3`. -/
theorem C6_buffer_size (u : UserParams) (c : CosmoParams) :
    (InitialConditions.allocate u c).hires_density.length = u.DIM ^ 3 ∧
    u.tot_fft_num_pixels = u.DIM ^ 3 ∧
    (UserParams.make none none (some 100)).DIM = 400 ∧
    (UserParams.make none none (some 100)).tot_fft_num_pixels = 400 ^ 3 ∧
    (UserParams.make none none (some 50)).DIM = 200 ∧
    (UserParams.make none none (some 50)).tot_fft_num_pixels = 200 ^ 3 := by
  refine ⟨?_, rfl, by decide, by decide, by decide, by decide⟩
  simp [InitialConditions.allocate, UserParams.tot_fft_num_pixels]

/-- Claim C7: the derived field `OMl` equals `1 - OMm`; it is computed on access (it is
a function, not a stored field of the structure) and is a pure function of the stored
field `OMm`: two instances agreeing on `OMm` agree on `OMl`. -/
theorem C7_OMl_derived (c c' : CosmoParams) (h : c'.OMm = c.OMm) :
    c.OMl = 1 - c.OMm ∧ c'.OMl = c.OMl := by
  exact ⟨rfl, by simp [CosmoParams.OMl, h]⟩

/-- Witness for C7 at concrete inputs: two instances differing in their seed but
sharing the default `OMm` have the same `OMl`, equal to `1 - OMm`. -/
theorem C7_witness :
    (CosmoParams.make none none none none none none).OMl =
      1 - (CosmoParams.make none none none none none none).OMm ∧
    (CosmoParams.make (some 5) none none none none none).OMl =
      (CosmoParams.make none none none none none none).OMl :=
  C7_OMl_derived (CosmoParams.make none none none none none none)
    (CosmoParams.make (some 5) none none none none none) rfl

/-- Claim C8: immediately after construction the artifact is unfilled and every element
of `hires_density` is zero (the buffer having its parameter-determined length). -/
theorem C8_allocate_unfilled_zero (u : UserParams) (c : CosmoParams) :
    (InitialConditions.allocate u c).filled = false ∧
    (InitialConditions.allocate u c).hires_density.length = u.tot_fft_num_pixels ∧
    ∀ x ∈ (InitialConditions.allocate u c).hires_density, x = 0 := by
  refine ⟨rfl, by simp [InitialConditions.allocate], ?_⟩
  intro x hx
  exact List.eq_of_mem_replicate hx

/-- Witness for C8 at concrete inputs: the artifact allocated from the tiny parameters
is unfilled and its first buffer element is zero. -/
theorem C8_witness :
    (InitialConditions.allocate upSmall cpSmall).filled = false ∧
    (InitialConditions.allocate upSmall cpSmall).hires_density.headI = 0 :=
  ⟨(C8_allocate_unfilled_zero upSmall cpSmall).1,
    (C8_allocate_unfilled_zero upSmall cpSmall).2.2
      (InitialConditions.allocate upSmall cpSmall).hires_density.headI (by decide)⟩

/-- Claim C9: when the stored `_RANDOM_SEED` is unset (`None`) or 0, the first access
realizes it as the generator's next output — an integer `s` with `1 ≤ s < 10 ** 12`
(the range of `np.random.randint(1, 1e12)`) — so an explicit seed of 0 is silently
replaced by a nonzero value in that range. -/
theorem C9_seed_realization (draws : ℕ → ℤ) (fuel : ℕ) (c : CosmoParams)
    (hrange : ∀ i, 1 ≤ draws i ∧ draws i < 10 ^ 12)
    (hunset : c._RANDOM_SEED = none ∨ c._RANDOM_SEED = some 0)
    (hfuel : 1 ≤ fuel) :
    c.accessRANDOM_SEED draws fuel =
      some (draws 0, { c with _RANDOM_SEED := some (draws 0) }) ∧
    1 ≤ draws 0 ∧ draws 0 < 10 ^ 12 := by
  obtain ⟨k, rfl⟩ : ∃ k, fuel = k + 1 := ⟨fuel - 1, by omega⟩
  have hfalse : pyTruthy c._RANDOM_SEED = false := by
    rcases hunset with h | h <;> simp [pyTruthy, h]
  have hd0 : draws 0 ≠ 0 := by
    have := (hrange 0).1
    omega
  refine ⟨?_, (hrange 0).1, (hrange 0).2⟩
  have h1 : seedWhile draws (k + 1) 0 c._RANDOM_SEED = some (draws 0) := by
    simp only [seedWhile, hfalse, if_false, Bool.false_eq_true]
    exact seedWhile_of_truthy draws k 1 (some (draws 0)) (by simp [pyTruthy, hd0])
  unfold CosmoParams.accessRANDOM_SEED
  rw [h1]

/-- Witness for C9 at concrete inputs: an explicit seed of 0 is replaced on first
access by the generator output 7, which lies in the documented range. -/
theorem C9_witness :
    (CosmoParams.make (some 0) none none none none none).accessRANDOM_SEED
      (fun _ => 7) 1 =
      some (7, { CosmoParams.make (some 0) none none none none none with
        _RANDOM_SEED := some 7 }) ∧
    1 ≤ (7 : ℤ) ∧ (7 : ℤ) < 10 ^ 12 :=
  C9_seed_realization (fun _ => 7) 1
    (CosmoParams.make (some 0) none none none none none)
    (fun _ => ⟨by norm_num, by norm_num⟩) (Or.inr rfl) (by norm_num)

/-- Claim C10: the default `UserParams()` and `CosmoParams()` of `initial_conditions`
are module-level instances created once at function-definition time and shared by every
default-argument call; once the shared default `CosmoParams` realizes its lazy
`RANDOM_SEED`, every subsequent default-argument call (any generator stream, any fuel)
observes that same seed value and leaves the module state unchanged. -/
theorem C10_default_seed_shared (draws draws' : ℕ → ℤ) (fuel fuel' : ℕ)
    (v : ℤ) (st : ModuleState)
    (h : defaultCallSeed draws fuel initModuleState = some (v, st)) :
    defaultCallSeed draws' fuel' st = some (v, st) := by
  unfold defaultCallSeed at h ⊢
  cases hacc : initModuleState.defaultCosmo.accessRANDOM_SEED draws fuel with
  | none => rw [hacc] at h; exact absurd h (by simp)
  | some p =>
    obtain ⟨w, c⟩ := p
    rw [hacc] at h
    simp only [Option.some.injEq, Prod.mk.injEq] at h
    obtain ⟨rfl, rfl⟩ := h
    rw [show ({ initModuleState with defaultCosmo := c } : ModuleState).defaultCosmo
        = c from rfl,
      accessRANDOM_SEED_stable draws draws' fuel fuel'
        initModuleState.defaultCosmo c w hacc]

/-- Witness for C10 at concrete inputs: after a first default-argument call realizes
the shared seed 5, a later default-argument call under a different stream observes 5
and leaves the module state unchanged. -/
theorem C10_witness :
    defaultCallSeed (fun _ => 9) 0
      { initModuleState with
        defaultCosmo :=
          { initModuleState.defaultCosmo with _RANDOM_SEED := some 5 } } =
      some (5,
        { initModuleState with
          defaultCosmo :=
            { initModuleState.defaultCosmo with _RANDOM_SEED := some 5 } }) :=
  C10_default_seed_shared (fun _ => 5) (fun _ => 9) 1 0 5
    { initModuleState with
      defaultCosmo :=
        { initModuleState.defaultCosmo with _RANDOM_SEED := some 5 } } rfl

end Wrapper
